import Mathlib

/-!
Verification development for the sentiment-analysis core of the
news-analysis backend (`api.py`).

The pure decision logic of the backend is embedded shallowly:

* the two external collaborators of `_analyze_sentiment` are passed in as
  oracles: `g` models the raw Google-translator call made inside
  `_translate_to_english` (it may raise, modelled as `Except.error`, or
  return `none`/a string), and `tb` models the TextBlob polarity classifier
  (it may raise as well — note the source does not wrap this call);
* Python floats are idealised as rationals (`ℚ`); the decimal weight
  constants 0.4, 0.3, 0.6, 0.25, 0.15, 0.03 become the exact rationals;
* `round(x, 4)` and the `:.2f` format specifier are modelled by exact
  round-half-to-even on rationals (`roundHE`);
* Python `str.strip` / `str.lower` / `str.split()` / `in` / slicing map to
  `String.trim` / `String.toLower` / `String.split` on whitespace /
  substring containment on the character list / `String.take`;
* `print` statements are side effects and are dropped.
-/

/-- Result record returned by `_analyze_sentiment` (the `SentimentResult`
pydantic model of the source, with `polarity` as an exact rational). -/
structure SentimentResult where
  label : String
  polarity : ℚ
  analyzed_text : String
  method : String
deriving DecidableEq

/-- English positive lexicon (`EN_POSITIVE` in the source, textual order). -/
def EN_POSITIVE : List String := ["good", "great", "best", "win", "success", "grow", "surge", "boost", "rise", "gain", "profit", "record", "breakthrough", "improve", "love", "happy", "excellent", "strong", "launch", "innovation", "support", "recover", "positive", "hope", "top", "high", "lead", "award", "joy", "wonderful", "fantastic", "amazing", "delight", "pleasure", "beautiful", "brilliant", "awesome", "celebrate", "glad", "cheerful", "excited", "thrilled", "optimistic", "proud", "grateful", "fortunate", "happiness", "satisfaction", "impressive", "remarkable", "outstanding"]

/-- English negative lexicon (`EN_NEGATIVE` in the source, textual order). -/
def EN_NEGATIVE : List String := ["bad", "worst", "fail", "loss", "crash", "fall", "drop", "kill", "death", "war", "attack", "crisis", "fear", "threat", "decline", "down", "cut", "fire", "fraud", "scandal", "risk", "danger", "collapse", "destroy", "bomb", "terror", "recession", "layoff", "victim", "suffer", "wrong", "debt", "bankrupt", "negative", "sad", "terrible", "horrible", "awful", "pain", "grief", "angry", "hate", "misery", "sorrow", "tragedy", "disaster", "despair", "worried", "disappointed", "frustrated", "alarming", "devastating", "sadness", "anxiety", "depression", "loneliness", "regret"]

/-- Korean positive lexicon (`KO_POSITIVE` in the source). -/
def KO_POSITIVE : List String := ["기쁨", "기쁘", "행복", "사랑", "좋다", "좋은", "좋아", "훌륭", "멋진", "멋지", "최고", "성공", "감사", "즐거", "즐겁", "축하", "승리", "희망", "응원", "대박", "우수", "탁월", "긍정", "만족", "환영", "감동", "뿌듯", "자랑", "신나", "신난", "웃음", "환호", "찬사", "보람", "설레", "기대", "잘했", "잘한", "최선", "발전", "상승", "호조", "흑자", "이익", "수익", "경사", "복", "건강", "평화", "화합"]

/-- Korean negative lexicon (`KO_NEGATIVE` in the source). -/
def KO_NEGATIVE : List String := ["슬픔", "슬프", "분노", "실패", "나쁘", "나쁜", "최악", "위기", "전쟁", "사망", "죽음", "죽었", "공포", "불안", "걱정", "고통", "절망", "비극", "재난", "파괴", "손실", "하락", "폭락", "침체", "부정", "혐오", "증오", "괴로", "눈물", "후회", "실망", "패배", "좌절", "두려", "우울", "외로", "고독", "원망", "적자", "파산", "해고", "사고", "피해", "위험", "폭력", "범죄", "테러", "빚", "부채", "탄핵"]

/-- Does the character list `w` occur at the head of `t`? -/
def charsStart (w t : List Char) : Bool :=
  match w, t with
  | [], _ => true
  | _ :: _, [] => false
  | a :: w', b :: t' => a == b && charsStart w' t'

/-- Does the character list `w` occur contiguously anywhere inside `t`? -/
def charsContain (w t : List Char) : Bool :=
  match t with
  | [] => charsStart w []
  | _ :: t' => charsStart w t || charsContain w t'

/-- Python `w in text` on strings: substring containment, expressed on the
underlying character lists. -/
def strContains (w text : String) : Bool :=
  charsContain w.data text.data

/-- Python `str.strip()` on the character list: drop leading and trailing
whitespace. -/
def trimChars (l : List Char) : List Char :=
  ((l.dropWhile Char.isWhitespace).reverse.dropWhile Char.isWhitespace).reverse

/-- Python `str.strip()`. -/
def pyStrip (s : String) : String :=
  String.mk (trimChars s.data)

/-- Python `str.lower()` (the lexicons and ASCII text this program feeds it
are covered exactly by `Char.toLower`). -/
def pyLower (s : String) : String :=
  String.mk (s.data.map Char.toLower)

/-- Python `s[:n]` character-prefix slicing. -/
def pyTake (s : String) (n : ℕ) : String :=
  String.mk (s.data.take n)

/-- Source `_is_korean`: true iff some character lies in the Hangul
syllables block U+AC00..U+D7A3 or the compatibility jamo block
U+3131..U+3163. -/
def _is_korean (text : String) : Bool :=
  text.data.any fun ch =>
    (0xac00 ≤ ch.toNat && ch.toNat ≤ 0xd7a3) || (0x3131 ≤ ch.toNat && ch.toNat ≤ 0x3163)

/-- Source `_ko_sentiment_score`: count lexicon entries occurring as
substrings, score `(pos - neg) * 0.25` clamped to `[-1, 1]`. -/
def _ko_sentiment_score (text : String) : ℚ × ℕ × ℕ :=
  let pos := (KO_POSITIVE.filter fun w => strContains w text).length
  let neg := (KO_NEGATIVE.filter fun w => strContains w text).length
  let score : ℚ := ((pos : ℚ) - (neg : ℚ)) * (25 / 100)
  (max (-1) (min 1 score), pos, neg)

/-- Source `_is_valid_text`: false on empty/whitespace-only text and on any
text containing one of the three placeholder markers. -/
def _is_valid_text (text : String) : Bool :=
  if text == "" || pyStrip text == "" then false
  else !(strContains "[removed]" text || strContains "[Removed]" text ||
         strContains "(제목 없음)" text)

/-- Source `_translate_to_english`, with the raw `GoogleTranslator.translate`
call abstracted as the oracle `g` (`Except.error` models a raised exception,
`Except.ok none` a `None` result).  Returns `(result, succeeded)`. -/
def _translate_to_english (g : String → Except String (Option String))
    (text : String) : String × Bool :=
  match g text with
  | Except.error _ => (text, false)
  | Except.ok none => (text, false)
  | Except.ok (some result) =>
      if result != "" && pyStrip result != "" &&
         pyLower (pyStrip result) != pyLower (pyStrip text) then
        (pyStrip result, true)
      else
        (text, false)

/-- Split a character list on whitespace runs, dropping empty pieces, with
`acc` holding the reversed current token (models Python `str.split()`). -/
def splitWS (l : List Char) (acc : List Char) : List String :=
  match l with
  | [] => if acc == [] then [] else [String.mk acc.reverse]
  | c :: cs =>
      if c.isWhitespace then
        if acc == [] then splitWS cs []
        else String.mk acc.reverse :: splitWS cs []
      else splitWS cs (c :: acc)

/-- Tokens of `en_text.lower().split()`: lowercase, split on whitespace,
drop empty pieces (Python `split()` with no argument drops them). -/
def _en_tokens (s : String) : List String :=
  splitWS (pyLower s).data []

/-- The pair `(en_pos, en_neg)` of lines 215-216 of the source:
cardinality of the intersection of the token set with each English lexicon
(the lexicons are duplicate-free, so filtering them counts the distinct
common words exactly as Python's `len(words & EN_POSITIVE)` does). -/
def _en_keyword_counts (s : String) : ℕ × ℕ :=
  let words := _en_tokens s
  ((EN_POSITIVE.filter fun w => words.contains w).length,
   (EN_NEGATIVE.filter fun w => words.contains w).length)

/-- The keyword boost `en_boost = (en_pos - en_neg) * 0.15` of line 217. -/
def _en_boost_of (s : String) : ℚ :=
  let c := _en_keyword_counts s
  ((c.1 : ℚ) - (c.2 : ℚ)) * (15 / 100)

/-- Round half to even (Python's rounding mode for `round` and `format`). -/
def roundHE (q : ℚ) : ℤ :=
  let f := ⌊q⌋
  let r := q - (f : ℚ)
  if r < 1 / 2 then f
  else if 1 / 2 < r then f + 1
  else if f % 2 = 0 then f else f + 1

/-- Python `round(x, 4)` on the rational idealisation. -/
def pyRound4 (x : ℚ) : ℚ :=
  ((roundHE (x * 10000) : ℚ)) / 10000

/-- Python `f"{x:.2f}"` on the rational idealisation. -/
def fmt2 (x : ℚ) : String :=
  let n := roundHE (x * 100)
  let sign := if n < 0 then "-" else ""
  let m := n.natAbs
  sign ++ toString (m / 100) ++ "." ++
    (if m % 100 < 10 then "0" else "") ++ toString (m % 100)

/-- Lines 202-209 of the source: the pair `(en_text, translated)` after
step 2 — translation is attempted iff `is_ko or language not in ("en",)`,
otherwise the defaults `(text, False)` stand. -/
def _en_pair (g : String → Except String (Option String))
    (text language : String) : String × Bool :=
  if _is_korean text || language != "en" then _translate_to_english g text
  else (text, false)

/-- Lines 211-213 of the source: the classifier `tb` is invoked on `en_text`
iff `translated or not is_ko`; otherwise the default `tb_polarity = 0.0`
stands and the classifier is never called. -/
def _tb_of (tb : String → Except String ℚ) (is_ko translated : Bool)
    (en_text : String) : Except String ℚ :=
  if translated || !is_ko then tb en_text else Except.ok 0

/-- Lines 221-229 of the source: the three-branch fusion, returning the
pre-clamp `final` together with `method_used`. -/
def _fuse (is_ko translated : Bool) (ko_score tb_polarity en_boost : ℚ) :
    ℚ × String :=
  if is_ko && translated then
    (ko_score * (4 / 10) + tb_polarity * (3 / 10) + en_boost * (3 / 10),
     "KO사전(" ++ fmt2 ko_score ++ ")+번역TextBlob(" ++ fmt2 tb_polarity ++
       ")+EN키워드(" ++ fmt2 en_boost ++ ")")
  else if is_ko && !translated then
    (ko_score, "KO사전 only(" ++ fmt2 ko_score ++ ")")
  else
    (tb_polarity * (6 / 10) + en_boost * (4 / 10),
     "TextBlob(" ++ fmt2 tb_polarity ++ ")+EN키워드(" ++ fmt2 en_boost ++ ")")

/-- Lines 196-198 of the source: `ko_score` stays at its default `0.0`
unless Korean script was detected. -/
def _ko_of (text : String) : ℚ :=
  (if _is_korean text then _ko_sentiment_score text else (0, 0, 0)).1

/-- Lines 205 and 211-217 of the source: `en_boost` stays at its default
`0.0` unless the classifier branch ran. -/
def _boost_of (g : String → Except String (Option String))
    (text language : String) : ℚ :=
  if (_en_pair g text language).2 || !_is_korean text then
    _en_boost_of (_en_pair g text language).1
  else 0

/-- The pre-clamp `final` of lines 221-229, given the classifier value `q`. -/
def _final_raw (g : String → Except String (Option String))
    (text language : String) (q : ℚ) : ℚ :=
  (_fuse (_is_korean text) (_en_pair g text language).2 (_ko_of text) q
    (_boost_of g text language)).1

/-- The clamped `final` of line 231. -/
def _final (g : String → Except String (Option String))
    (text language : String) (q : ℚ) : ℚ :=
  max (-1) (min 1 (_final_raw g text language q))

/-- The `method_used` string of lines 221-229. -/
def _method_of (g : String → Except String (Option String))
    (text language : String) (q : ℚ) : String :=
  (_fuse (_is_korean text) (_en_pair g text language).2 (_ko_of text) q
    (_boost_of g text language)).2

/-- The labeling thresholds of lines 234-239. -/
def _label_of (x : ℚ) : String :=
  if (3 / 100 : ℚ) < x then "Positive 😊"
  else if x < -(3 / 100) then "Negative 😟"
  else "Neutral 😐"

/-- Line 241 of the source: `display_text` is the translated text when
translation succeeded, the original otherwise. -/
def _display_of (g : String → Except String (Option String))
    (text language : String) : String :=
  if (_en_pair g text language).2 then (_en_pair g text language).1 else text

/-- Source `_analyze_sentiment`, parameterised by the translation oracle `g`
and the classifier oracle `tb`.  The classifier call of line 212 is not
wrapped in any `try`, so a classifier failure propagates (`Except.error`). -/
def _analyze_sentiment (g : String → Except String (Option String))
    (tb : String → Except String ℚ) (text : String) (language : String) :
    Except String SentimentResult :=
  if _is_valid_text text = false then
    Except.ok ⟨"Neutral 😐", 0, "(분석 불가)", "none"⟩
  else
    match _tb_of tb (_is_korean text) (_en_pair g text language).2
        (_en_pair g text language).1 with
    | Except.error e => Except.error e
    | Except.ok tb_polarity =>
      Except.ok
        ⟨_label_of (_final g text language tb_polarity),
         pyRound4 (_final g text language tb_polarity),
         pyTake (_display_of g text language) 100,
         _method_of g text language tb_polarity⟩

/-- The result record `_analyze_sentiment` builds on the valid path (line
242 of the source), given the classifier value `q`. -/
def mkResult (g : String → Except String (Option String))
    (text language : String) (q : ℚ) : SentimentResult :=
  ⟨_label_of (_final g text language q),
   pyRound4 (_final g text language q),
   pyTake (_display_of g text language) 100,
   _method_of g text language q⟩

/-- Fixture oracle: the translator call echoes the input unchanged. -/
def gEcho : String → Except String (Option String) :=
  fun s => Except.ok (some s)

/-- Fixture oracle: the translator call raises. -/
def gDown : String → Except String (Option String) :=
  fun _ => Except.error "network down"

/-- Fixture oracle: the classifier returns polarity zero. -/
def tbZero : String → Except String ℚ :=
  fun _ => Except.ok 0

/-- Fixture oracle: the classifier raises. -/
def tbBoom : String → Except String ℚ :=
  fun _ => Except.error "classifier crash"

/-- Line 299 of the source: the label histogram of `get_news`,
pre-initialised with the three label keys at zero. -/
def initCounts : List (String × ℕ) :=
  [("Positive 😊", 0), ("Neutral 😐", 0), ("Negative 😟", 0)]

/-- Line 309 of the source, `counts[sent.label] = counts.get(sent.label, 0)
+ 1` on an insertion-ordered dict: bump the entry when the key is present,
append a fresh entry otherwise. -/
def _update_counts (counts : List (String × ℕ)) (label : String) :
    List (String × ℕ) :=
  if counts.any fun p => p.1 == label then
    counts.map fun p => if p.1 == label then (p.1, p.2 + 1) else p
  else counts ++ [(label, 1)]

/-- The label histogram accumulated over the analysed articles by the
`get_news` loop (lines 302-309). -/
def _news_label_histogram (rs : List SentimentResult) : List (String × ℕ) :=
  rs.foldl (fun cs r => _update_counts cs r.label) initCounts

/-! ### General evaluation and bounding lemmas -/

/-- Clamping to `[-1, 1]` is the identity inside the interval. -/
lemma clamp_eq_self {x : ℚ} (h1 : -1 ≤ x) (h2 : x ≤ 1) :
    max (-1) (min 1 x) = x := by
  rw [min_eq_right h2, max_eq_right h1]

lemma clamp_lb (x : ℚ) : -1 ≤ max (-1) (min 1 x) := le_max_left _ _

lemma clamp_ub (x : ℚ) : max (-1) (min 1 x) ≤ 1 :=
  max_le (by norm_num) (min_le_left _ _)

/-- `roundHE` is the identity on integers. -/
lemma roundHE_intCast (n : ℤ) : roundHE (n : ℚ) = n := by
  unfold roundHE
  rw [Int.floor_intCast]
  rw [if_pos (by norm_num)]

/-- `roundHE` returns the floor or the floor plus one, the latter only when
the fractional part is at least one half. -/
lemma roundHE_cases (q : ℚ) :
    roundHE q = ⌊q⌋ ∨ (roundHE q = ⌊q⌋ + 1 ∧ (1 / 2 : ℚ) ≤ q - (⌊q⌋ : ℚ)) := by
  simp only [roundHE]
  split_ifs with h1 h2 h3
  · exact Or.inl rfl
  · exact Or.inr ⟨rfl, le_of_lt h2⟩
  · exact Or.inl rfl
  · exact Or.inr ⟨rfl, le_of_not_lt h1⟩

/-- Rounding to four decimals does not leave `[-1, 1]`. -/
lemma pyRound4_range {x : ℚ} (h1 : -1 ≤ x) (h2 : x ≤ 1) :
    -1 ≤ pyRound4 x ∧ pyRound4 x ≤ 1 := by
  have hq1 : (-10000 : ℚ) ≤ x * 10000 := by nlinarith
  have hq2 : x * 10000 ≤ 10000 := by nlinarith
  have hlow : (-10000 : ℤ) ≤ roundHE (x * 10000) := by
    have hfl : (-10000 : ℤ) ≤ ⌊x * 10000⌋ := by
      rw [Int.le_floor]; push_cast; exact hq1
    rcases roundHE_cases (x * 10000) with h | ⟨h, _⟩
    · omega
    · omega
  have hhigh : roundHE (x * 10000) ≤ 10000 := by
    rcases roundHE_cases (x * 10000) with h | ⟨h, hfrac⟩
    · rw [h]
      have := Int.floor_le (x * 10000)
      have : (⌊x * 10000⌋ : ℚ) ≤ 10000 := le_trans this hq2
      exact_mod_cast this
    · rw [h]
      have hfq : (⌊x * 10000⌋ : ℚ) ≤ x * 10000 - 1 / 2 := by linarith
      have : (⌊x * 10000⌋ : ℚ) < 10000 := by linarith
      have : ⌊x * 10000⌋ < 10000 := by exact_mod_cast this
      omega
  unfold pyRound4
  constructor
  · rw [le_div_iff₀ (by norm_num : (0:ℚ) < 10000)]
    have hc : ((-10000 : ℤ) : ℚ) ≤ (roundHE (x * 10000) : ℚ) := by exact_mod_cast hlow
    push_cast at hc
    linarith
  · rw [div_le_iff₀ (by norm_num : (0:ℚ) < 10000)]
    have hc : ((roundHE (x * 10000)) : ℚ) ≤ ((10000 : ℤ) : ℚ) := by exact_mod_cast hhigh
    push_cast at hc
    linarith

/-- `_analyze_sentiment` on invalid text: the fixed early return. -/
lemma analyze_invalid (g : String → Except String (Option String))
    (tb : String → Except String ℚ) (text language : String)
    (h : _is_valid_text text = false) :
    _analyze_sentiment g tb text language =
      Except.ok ⟨"Neutral 😐", 0, "(분석 불가)", "none"⟩ := by
  unfold _analyze_sentiment
  rw [if_pos h]

/-- `_analyze_sentiment` on valid text when the (gated) classifier value is
available: the fully resolved result. -/
lemma analyze_valid_ok (g : String → Except String (Option String))
    (tb : String → Except String ℚ) (text language : String)
    (hv : _is_valid_text text = true) (q : ℚ)
    (htb : _tb_of tb (_is_korean text) (_en_pair g text language).2
      (_en_pair g text language).1 = Except.ok q) :
    _analyze_sentiment g tb text language =
      Except.ok (mkResult g text language q) := by
  unfold _analyze_sentiment mkResult
  rw [if_neg (by simp [hv]), htb]

/-- `_analyze_sentiment` on valid text propagates a classifier error. -/
lemma analyze_valid_err (g : String → Except String (Option String))
    (tb : String → Except String ℚ) (text language : String)
    (hv : _is_valid_text text = true) (e : String)
    (htb : _tb_of tb (_is_korean text) (_en_pair g text language).2
      (_en_pair g text language).1 = Except.error e) :
    _analyze_sentiment g tb text language = Except.error e := by
  unfold _analyze_sentiment
  rw [if_neg (by simp [hv]), htb]

/-- If the analysis of a valid text returned a result, the gated classifier
value must have been available. -/
lemma analyze_ok_inv (g : String → Except String (Option String))
    (tb : String → Except String ℚ) (text language : String)
    (r : SentimentResult) (hv : _is_valid_text text = true)
    (hr : _analyze_sentiment g tb text language = Except.ok r) :
    ∃ q, _tb_of tb (_is_korean text) (_en_pair g text language).2
      (_en_pair g text language).1 = Except.ok q := by
  rcases h : _tb_of tb (_is_korean text) (_en_pair g text language).2
      (_en_pair g text language).1 with e | q
  · rw [analyze_valid_err g tb text language hv e h] at hr
    exact absurd hr (by simp)
  · exact ⟨q, rfl⟩

lemma pyRound4_zero : pyRound4 0 = 0 := by
  unfold pyRound4
  rw [show ((0 : ℚ) * 10000) = ((0 : ℤ) : ℚ) by norm_num, roundHE_intCast]
  norm_num

lemma final_lb (g : String → Except String (Option String))
    (text language : String) (q : ℚ) : -1 ≤ _final g text language q := by
  unfold _final
  exact clamp_lb _

lemma final_ub (g : String → Except String (Option String))
    (text language : String) (q : ℚ) : _final g text language q ≤ 1 := by
  unfold _final
  exact clamp_ub _

/-- The first component of `_fuse` written as the three-branch weighted
combination. -/
lemma fuse_fst (k t : Bool) (a b c : ℚ) :
    (_fuse k t a b c).1 =
      if k && t then a * (4 / 10) + b * (3 / 10) + c * (3 / 10)
      else if k && !t then a
      else b * (6 / 10) + c * (4 / 10) := by
  cases k <;> cases t <;> simp [_fuse]

/-- `_label_of` always yields one of the three label constants. -/
lemma label_of_mem (x : ℚ) :
    _label_of x = "Positive 😊" ∨ _label_of x = "Neutral 😐" ∨
    _label_of x = "Negative 😟" := by
  unfold _label_of
  split_ifs <;> simp

/-- Every result `_analyze_sentiment` returns carries one of the three
label constants. -/
lemma analyze_label_mem (g : String → Except String (Option String))
    (tb : String → Except String ℚ) (text language : String)
    (r : SentimentResult)
    (hr : _analyze_sentiment g tb text language = Except.ok r) :
    r.label = "Positive 😊" ∨ r.label = "Neutral 😐" ∨
    r.label = "Negative 😟" := by
  by_cases hv : _is_valid_text text = true
  · obtain ⟨q, hq⟩ := analyze_ok_inv g tb text language r hv hr
    rw [analyze_valid_ok g tb text language hv q hq] at hr
    injection hr with h
    subst h
    exact label_of_mem _
  · have hv' : _is_valid_text text = false := by
      cases h : _is_valid_text text
      · rfl
      · exact absurd h hv
    rw [analyze_invalid g tb text language hv'] at hr
    injection hr with h
    subst h
    exact Or.inr (Or.inl rfl)

/-- Folding the `get_news` count update over labels drawn from the three
constants keeps exactly the three pre-initialised keys and adds one per
label to the total. -/
lemma hist_aux (labels : List String)
    (h : ∀ l ∈ labels, l = "Positive 😊" ∨ l = "Neutral 😐" ∨
      l = "Negative 😟") :
    ∀ a b c : ℕ, ∃ a' b' c',
      labels.foldl _update_counts
          [("Positive 😊", a), ("Neutral 😐", b), ("Negative 😟", c)] =
        [("Positive 😊", a'), ("Neutral 😐", b'), ("Negative 😟", c')] ∧
      a' + b' + c' = a + b + c + labels.length := by
  induction labels with
  | nil => exact fun a b c => ⟨a, b, c, rfl, by simp⟩
  | cons l ls ih =>
    intro a b c
    have htail : ∀ l' ∈ ls, l' = "Positive 😊" ∨ l' = "Neutral 😐" ∨
        l' = "Negative 😟" := fun l' hm => h l' (List.mem_cons_of_mem _ hm)
    rcases h l (List.mem_cons_self _ _) with hl | hl | hl <;> subst hl
    · have hstep : _update_counts
          [("Positive 😊", a), ("Neutral 😐", b), ("Negative 😟", c)]
          "Positive 😊" =
          [("Positive 😊", a + 1), ("Neutral 😐", b), ("Negative 😟", c)] := by
        simp [_update_counts]
      obtain ⟨a', b', c', hfold, hsum⟩ := ih htail (a + 1) b c
      refine ⟨a', b', c', ?_, ?_⟩
      · rw [List.foldl_cons, hstep]
        exact hfold
      · simp only [List.length_cons]
        omega
    · have hstep : _update_counts
          [("Positive 😊", a), ("Neutral 😐", b), ("Negative 😟", c)]
          "Neutral 😐" =
          [("Positive 😊", a), ("Neutral 😐", b + 1), ("Negative 😟", c)] := by
        simp [_update_counts]
      obtain ⟨a', b', c', hfold, hsum⟩ := ih htail a (b + 1) c
      refine ⟨a', b', c', ?_, ?_⟩
      · rw [List.foldl_cons, hstep]
        exact hfold
      · simp only [List.length_cons]
        omega
    · have hstep : _update_counts
          [("Positive 😊", a), ("Neutral 😐", b), ("Negative 😟", c)]
          "Negative 😟" =
          [("Positive 😊", a), ("Neutral 😐", b), ("Negative 😟", c + 1)] := by
        simp [_update_counts]
      obtain ⟨a', b', c', hfold, hsum⟩ := ih htail a b (c + 1)
      refine ⟨a', b', c', ?_, ?_⟩
      · rw [List.foldl_cons, hstep]
        exact hfold
      · simp only [List.length_cons]
        omega

/-! ### Claims -/

/-- C3 counterexample: on the empty (invalid) text the analysis returns the
Korean placeholder "(분석 불가)" as `analyzed_text`, not the literal string
"(unanalyzable)" stated in the claim. -/
theorem analyze_invalid_placeholder_cex :
    _analyze_sentiment gEcho tbZero "" "auto" =
      Except.ok ⟨"Neutral 😐", 0, "(분석 불가)", "none"⟩ ∧
    "(분석 불가)" ≠ "(unanalyzable)" :=
  ⟨analyze_invalid gEcho tbZero "" "auto" (by decide), by decide⟩

/-- C3 (amended): for every text failing the validity filter (including ""
and "[removed]") the analysis returns immediately, with no further stage
run, the fixed result with label "Neutral 😐", polarity 0.0, analyzed text
"(분석 불가)" and method "none". -/
theorem analyze_invalid_gate (g : String → Except String (Option String))
    (tb : String → Except String ℚ) (text language : String)
    (h : _is_valid_text text = false) :
    _analyze_sentiment g tb text language =
      Except.ok ⟨"Neutral 😐", 0, "(분석 불가)", "none"⟩ :=
  analyze_invalid g tb text language h

/-- Witness for C3 at the concrete invalid inputs "" and "[removed]". -/
theorem analyze_invalid_gate_witness :
    _is_valid_text "" = false ∧ _is_valid_text "[removed]" = false ∧
    _analyze_sentiment gEcho tbZero "" "auto" =
      Except.ok ⟨"Neutral 😐", 0, "(분석 불가)", "none"⟩ ∧
    _analyze_sentiment gEcho tbZero "[removed]" "en" =
      Except.ok ⟨"Neutral 😐", 0, "(분석 불가)", "none"⟩ :=
  ⟨by decide, by decide,
   analyze_invalid_gate gEcho tbZero "" "auto" (by decide),
   analyze_invalid_gate gEcho tbZero "[removed]" "en" (by decide)⟩

/-- C8: the translation wrapper never propagates a raised exception (an
oracle error yields `(text, false)`), treats a `None`, empty or
input-echoing result as failure with the original text echoed back, and
reports success only when the returned text differs, case-folded, from the
trimmed case-folded input. -/
theorem translate_to_english_contract
    (g : String → Except String (Option String)) (text : String) :
    (∀ e, g text = Except.error e →
      _translate_to_english g text = (text, false)) ∧
    (g text = Except.ok none → _translate_to_english g text = (text, false)) ∧
    (∀ r, g text = Except.ok (some r) →
      (pyStrip r == "" || pyLower (pyStrip r) == pyLower (pyStrip text)) = true →
      _translate_to_english g text = (text, false)) ∧
    (∀ s b, _translate_to_english g text = (s, b) → b = true →
      pyLower s ≠ pyLower (pyStrip text)) := by
  refine ⟨?_, ?_, ?_, ?_⟩
  · intro e he; unfold _translate_to_english; rw [he]
  · intro hn; unfold _translate_to_english; rw [hn]
  · intro r hr hcond
    have hfalse : ¬ ((r != "" && pyStrip r != "" &&
        pyLower (pyStrip r) != pyLower (pyStrip text)) = true) := by
      simp only [Bool.and_eq_true, bne_iff_ne, ne_eq, Bool.or_eq_true,
        beq_iff_eq] at hcond ⊢
      tauto
    simp only [_translate_to_english, hr]
    rw [if_neg hfalse]
  · intro s b hsb hb
    subst hb
    rcases hg : g text with e | o
    · simp only [_translate_to_english, hg, Prod.mk.injEq] at hsb
      exact absurd hsb.2 Bool.false_ne_true
    · rcases o with _ | r
      · simp only [_translate_to_english, hg, Prod.mk.injEq] at hsb
        exact absurd hsb.2 Bool.false_ne_true
      · simp only [_translate_to_english, hg] at hsb
        by_cases hc : (r != "" && pyStrip r != "" &&
            pyLower (pyStrip r) != pyLower (pyStrip text)) = true
        · rw [if_pos hc] at hsb
          simp only [Prod.mk.injEq] at hsb
          obtain ⟨hs, -⟩ := hsb
          simp only [Bool.and_eq_true, bne_iff_ne, ne_eq] at hc
          rw [← hs]
          tauto
        · rw [if_neg hc] at hsb
          simp only [Prod.mk.injEq] at hsb
          exact absurd hsb.2 Bool.false_ne_true

/-- C9: the four static lexicons are pairwise sound — empty
positive-negative intersection per language and no duplicates in any of
the four lists (immutability is definitional in this embedding). -/
theorem lexicon_integrity :
    EN_POSITIVE.inter EN_NEGATIVE = [] ∧
    KO_POSITIVE.inter KO_NEGATIVE = [] ∧
    EN_POSITIVE.Nodup ∧ EN_NEGATIVE.Nodup ∧
    KO_POSITIVE.Nodup ∧ KO_NEGATIVE.Nodup :=
  ⟨by decide, by decide, by decide, by decide, by decide, by decide⟩

/-- C7: `_ko_sentiment_score` counts the positive and negative lexicon
entries occurring as substrings of the text, returns the difference scaled
by 0.25 and clamped to `[-1, 1]`, and on the three reference inputs yields
`(0.25, 1, 0)`, `(-0.25, 0, 1)` and `(0.0, 0, 0)`. -/
theorem ko_sentiment_score_spec :
    (∀ text, _ko_sentiment_score text =
      (max (-1) (min 1 (
        (((KO_POSITIVE.filter fun w => strContains w text).length : ℚ) -
         ((KO_NEGATIVE.filter fun w => strContains w text).length : ℚ)) *
          (25 / 100))),
       (KO_POSITIVE.filter fun w => strContains w text).length,
       (KO_NEGATIVE.filter fun w => strContains w text).length) ∧
      -1 ≤ (_ko_sentiment_score text).1 ∧ (_ko_sentiment_score text).1 ≤ 1) ∧
    _ko_sentiment_score "기쁨" = (25 / 100, 1, 0) ∧
    _ko_sentiment_score "슬픔" = (-(25 / 100), 0, 1) ∧
    _ko_sentiment_score "회의실 예약" = (0, 0, 0) := by
  refine ⟨fun text => ⟨rfl, clamp_lb _, clamp_ub _⟩, ?_, ?_, ?_⟩
  · have e1 : (KO_POSITIVE.filter fun w => strContains w "기쁨").length = 1 := by
      decide
    have e2 : (KO_NEGATIVE.filter fun w => strContains w "기쁨").length = 0 := by
      decide
    simp only [_ko_sentiment_score, e1, e2]
    rw [show ((((1:ℕ):ℚ)) - (((0:ℕ):ℚ))) * (25 / 100) = 25 / 100 by push_cast; ring]
    rw [clamp_eq_self (by norm_num) (by norm_num)]
  · have e1 : (KO_POSITIVE.filter fun w => strContains w "슬픔").length = 0 := by
      decide
    have e2 : (KO_NEGATIVE.filter fun w => strContains w "슬픔").length = 1 := by
      decide
    simp only [_ko_sentiment_score, e1, e2]
    rw [show ((((0:ℕ):ℚ)) - (((1:ℕ):ℚ))) * (25 / 100) = -(25 / 100) by push_cast; ring]
    rw [clamp_eq_self (by norm_num) (by norm_num)]
  · have e1 : (KO_POSITIVE.filter fun w => strContains w "회의실 예약").length = 0 := by
      decide
    have e2 : (KO_NEGATIVE.filter fun w => strContains w "회의실 예약").length = 0 := by
      decide
    simp only [_ko_sentiment_score, e1, e2]
    rw [show ((((0:ℕ):ℚ)) - (((0:ℕ):ℚ))) * (25 / 100) = 0 by push_cast; ring]
    rw [clamp_eq_self (by norm_num) (by norm_num)]

/-- C2 counterexample: on the valid English text "sunny day" with a raising
classifier oracle, `_analyze_sentiment` propagates the exception instead of
degrading to a default — the classifier call is not wrapped. -/
theorem analyze_classifier_error_cex :
    _is_valid_text "sunny day" = true ∧
    _analyze_sentiment gEcho tbBoom "sunny day" "auto" =
      Except.error "classifier crash" := by
  constructor
  · decide
  · exact analyze_valid_err gEcho tbBoom "sunny day" "auto" (by decide)
      "classifier crash" rfl

/-- C2 (amended): the translation call is wrapped (a raising translator
oracle still yields a result), but the classifier call is not; whenever the
classifier itself returns normally, `_analyze_sentiment` returns a result
for every input text and language. -/
theorem analyze_ok_of_total_classifier
    (g : String → Except String (Option String))
    (tb : String → Except String ℚ) (text language : String)
    (htb : ∀ s, ∃ q, tb s = Except.ok q) :
    ∃ r, _analyze_sentiment g tb text language = Except.ok r := by
  by_cases hv : _is_valid_text text = true
  · rcases hc : ((_en_pair g text language).2 || !_is_korean text) with _ | _
    · refine ⟨_, analyze_valid_ok g tb text language hv 0 ?_⟩
      unfold _tb_of
      rw [if_neg (by simp [hc])]
    · obtain ⟨q, hq⟩ := htb (_en_pair g text language).1
      refine ⟨_, analyze_valid_ok g tb text language hv q ?_⟩
      unfold _tb_of
      rw [if_pos hc]
      exact hq
  · have hv' : _is_valid_text text = false := by
      cases h : _is_valid_text text
      · rfl
      · exact absurd h hv
    exact ⟨_, analyze_invalid g tb text language hv'⟩

/-- Witness for C2 (amended): with a raising translator and a total
classifier, the analysis of "breaking news" still returns a result. -/
theorem analyze_ok_of_total_classifier_witness :
    ∃ r, _analyze_sentiment gDown tbZero "breaking news" "auto" =
      Except.ok r :=
  analyze_ok_of_total_classifier gDown tbZero "breaking news" "auto"
    (fun _ => ⟨0, rfl⟩)

/-- C1: for every valid input, the pre-clamp score is computed by exactly
one of three mutually exclusive cases selected on `(is_ko, translated)`:
`ko*0.4 + tb*0.3 + boost*0.3` when both hold, `ko` alone when Korean but
untranslated, and `tb*0.6 + boost*0.4` whenever `is_ko` is false,
independently of `translated`; the polarity is that score clamped and
rounded. -/
theorem analyze_fusion_three_cases (g : String → Except String (Option String))
    (tb : String → Except String ℚ) (text language : String)
    (r : SentimentResult) (q : ℚ)
    (hv : _is_valid_text text = true)
    (hr : _analyze_sentiment g tb text language = Except.ok r)
    (htb : _tb_of tb (_is_korean text) (_en_pair g text language).2
      (_en_pair g text language).1 = Except.ok q) :
    r.polarity = pyRound4 (max (-1) (min 1 (
      if _is_korean text && (_en_pair g text language).2 then
        (_ko_sentiment_score text).1 * (4 / 10) + q * (3 / 10) +
          _en_boost_of (_en_pair g text language).1 * (3 / 10)
      else if _is_korean text && !(_en_pair g text language).2 then
        (_ko_sentiment_score text).1
      else q * (6 / 10) +
        _en_boost_of (_en_pair g text language).1 * (4 / 10)))) := by
  rw [analyze_valid_ok g tb text language hv q htb] at hr
  injection hr with h
  subst h
  show pyRound4 (_final g text language q) = _
  congr 1
  unfold _final _final_raw
  congr 1
  congr 1
  rw [fuse_fst]
  cases hk : _is_korean text <;> cases ht : (_en_pair g text language).2 <;>
    simp [_ko_of, _boost_of, hk, ht]

/-- Witness for C1 on the valid English text "hello" with language "en". -/
theorem analyze_fusion_three_cases_witness :
    _is_valid_text "hello" = true ∧
    _analyze_sentiment gDown tbZero "hello" "en" =
      Except.ok (mkResult gDown "hello" "en" 0) ∧
    (mkResult gDown "hello" "en" 0).polarity = pyRound4 (max (-1) (min 1 (
      if _is_korean "hello" && (_en_pair gDown "hello" "en").2 then
        (_ko_sentiment_score "hello").1 * (4 / 10) + 0 * (3 / 10) +
          _en_boost_of (_en_pair gDown "hello" "en").1 * (3 / 10)
      else if _is_korean "hello" && !(_en_pair gDown "hello" "en").2 then
        (_ko_sentiment_score "hello").1
      else 0 * (6 / 10) +
        _en_boost_of (_en_pair gDown "hello" "en").1 * (4 / 10)))) := by
  have hr : _analyze_sentiment gDown tbZero "hello" "en" =
      Except.ok (mkResult gDown "hello" "en" 0) :=
    analyze_valid_ok gDown tbZero "hello" "en" (by decide) 0 rfl
  exact ⟨by decide, hr,
    analyze_fusion_three_cases gDown tbZero "hello" "en" _ 0 (by decide) hr rfl⟩

/-- C4: the returned polarity always lies in `[-1, 1]`; on the valid path
it is the clamped fused score rounded to four decimals, and on the invalid
path it is the constant 0. -/
theorem analyze_polarity_in_range (g : String → Except String (Option String))
    (tb : String → Except String ℚ) (text language : String)
    (r : SentimentResult)
    (hr : _analyze_sentiment g tb text language = Except.ok r) :
    (-1 ≤ r.polarity ∧ r.polarity ≤ 1) ∧
    (∀ q, _tb_of tb (_is_korean text) (_en_pair g text language).2
        (_en_pair g text language).1 = Except.ok q →
      _is_valid_text text = true →
      r.polarity = pyRound4 (_final g text language q) ∧
      -1 ≤ _final g text language q ∧ _final g text language q ≤ 1) ∧
    (_is_valid_text text = false → r.polarity = 0) := by
  by_cases hv : _is_valid_text text = true
  · obtain ⟨q0, hq0⟩ := analyze_ok_inv g tb text language r hv hr
    rw [analyze_valid_ok g tb text language hv q0 hq0] at hr
    injection hr with h
    subst h
    refine ⟨?_, ?_, ?_⟩
    · exact pyRound4_range (final_lb g text language q0) (final_ub g text language q0)
    · intro q hq hv2
      rw [hq] at hq0
      injection hq0 with hq'
      subst hq'
      exact ⟨rfl, final_lb _ _ _ _, final_ub _ _ _ _⟩
    · intro hv3
      rw [hv3] at hv
      exact absurd hv (by simp)
  · have hv' : _is_valid_text text = false := by
      cases h : _is_valid_text text
      · rfl
      · exact absurd h hv
    rw [analyze_invalid g tb text language hv'] at hr
    injection hr with h
    subst h
    refine ⟨⟨by norm_num, by norm_num⟩, ?_, fun _ => rfl⟩
    intro q hq hv2
    exact absurd hv2 hv

/-- Witness for C4 on the valid English text "good news". -/
theorem analyze_polarity_in_range_witness :
    _analyze_sentiment gEcho tbZero "good news" "en" =
      Except.ok (mkResult gEcho "good news" "en" 0) ∧
    -1 ≤ (mkResult gEcho "good news" "en" 0).polarity ∧
    (mkResult gEcho "good news" "en" 0).polarity ≤ 1 := by
  have hr : _analyze_sentiment gEcho tbZero "good news" "en" =
      Except.ok (mkResult gEcho "good news" "en" 0) :=
    analyze_valid_ok gEcho tbZero "good news" "en" (by decide) 0 rfl
  exact ⟨hr,
    (analyze_polarity_in_range gEcho tbZero "good news" "en" _ hr).1⟩

/-- C5: on the valid path the label is decided by the 0.03 deadband on the
clamped fused score: above 0.03 "Positive 😊", below -0.03 "Negative 😟",
otherwise "Neutral 😐". -/
theorem analyze_label_thresholds (g : String → Except String (Option String))
    (tb : String → Except String ℚ) (text language : String)
    (r : SentimentResult) (q : ℚ)
    (hv : _is_valid_text text = true)
    (hr : _analyze_sentiment g tb text language = Except.ok r)
    (htb : _tb_of tb (_is_korean text) (_en_pair g text language).2
      (_en_pair g text language).1 = Except.ok q) :
    -1 ≤ _final g text language q ∧ _final g text language q ≤ 1 ∧
    r.polarity = pyRound4 (_final g text language q) ∧
    r.label =
      (if (3 / 100 : ℚ) < _final g text language q then "Positive 😊"
       else if _final g text language q < -(3 / 100) then "Negative 😟"
       else "Neutral 😐") := by
  rw [analyze_valid_ok g tb text language hv q htb] at hr
  injection hr with h
  subst h
  exact ⟨final_lb _ _ _ _, final_ub _ _ _ _, rfl, rfl⟩

/-- Witness for C5 on the valid English text "quiet morning". -/
theorem analyze_label_thresholds_witness :
    _is_valid_text "quiet morning" = true ∧
    _analyze_sentiment gEcho tbZero "quiet morning" "en" =
      Except.ok (mkResult gEcho "quiet morning" "en" 0) ∧
    (mkResult gEcho "quiet morning" "en" 0).label =
      (if (3 / 100 : ℚ) < _final gEcho "quiet morning" "en" 0 then "Positive 😊"
       else if _final gEcho "quiet morning" "en" 0 < -(3 / 100) then "Negative 😟"
       else "Neutral 😐") := by
  have hr : _analyze_sentiment gEcho tbZero "quiet morning" "en" =
      Except.ok (mkResult gEcho "quiet morning" "en" 0) :=
    analyze_valid_ok gEcho tbZero "quiet morning" "en" (by decide) 0 rfl
  exact ⟨by decide, hr,
    (analyze_label_thresholds gEcho tbZero "quiet morning" "en" _ 0
      (by decide) hr rfl).2.2.2⟩

/-- C6: translation is attempted exactly when Korean script is present or
the requested language is not "en" (otherwise the pair defaults to
`(text, false)` and the result does not depend on the translator oracle);
the classifier runs on the possibly-translated text exactly when
translation succeeded or the text is not Korean (its error propagates and
its value is used), and otherwise the result does not depend on the
classifier oracle. -/
theorem analyze_stage_gating (g g' : String → Except String (Option String))
    (tb tb' : String → Except String ℚ) (text language : String)
    (hv : _is_valid_text text = true) :
    ((_is_korean text || language != "en") = true →
      _en_pair g text language = _translate_to_english g text) ∧
    ((_is_korean text || language != "en") = false →
      _en_pair g text language = (text, false) ∧
      _analyze_sentiment g tb text language =
        _analyze_sentiment g' tb text language) ∧
    (((_en_pair g text language).2 || !_is_korean text) = true →
      (∀ e, tb (_en_pair g text language).1 = Except.error e →
        _analyze_sentiment g tb text language = Except.error e) ∧
      (∀ p, tb (_en_pair g text language).1 = Except.ok p →
        _analyze_sentiment g tb text language =
          Except.ok (mkResult g text language p))) ∧
    (((_en_pair g text language).2 || !_is_korean text) = false →
      _analyze_sentiment g tb text language =
        _analyze_sentiment g tb' text language) := by
  refine ⟨?_, ?_, ?_, ?_⟩
  · intro h
    unfold _en_pair
    rw [if_pos h]
  · intro h
    have hg : ∀ g0 : String → Except String (Option String),
        _en_pair g0 text language = (text, false) := by
      intro g0
      unfold _en_pair
      rw [if_neg (by simp [h])]
    refine ⟨hg g, ?_⟩
    simp only [_analyze_sentiment, _final, _final_raw, _method_of,
      _display_of, _boost_of, hg]
  · intro h
    constructor
    · intro e he
      refine analyze_valid_err g tb text language hv e ?_
      unfold _tb_of
      rw [if_pos h]
      exact he
    · intro p hp
      refine analyze_valid_ok g tb text language hv p ?_
      unfold _tb_of
      rw [if_pos h]
      exact hp
  · intro h
    have h1 : _tb_of tb (_is_korean text) (_en_pair g text language).2
        (_en_pair g text language).1 = Except.ok 0 := by
      unfold _tb_of
      rw [if_neg (by simp [h])]
    have h2 : _tb_of tb' (_is_korean text) (_en_pair g text language).2
        (_en_pair g text language).1 = Except.ok 0 := by
      unfold _tb_of
      rw [if_neg (by simp [h])]
    rw [analyze_valid_ok g tb text language hv 0 h1,
      analyze_valid_ok g tb' text language hv 0 h2]

/-- Witness for C6: on the valid non-Korean text "stormy sea" with
language "auto" the classifier branch is active and a classifier error
surfaces unchanged. -/
theorem analyze_stage_gating_witness :
    _is_valid_text "stormy sea" = true ∧
    ((_en_pair gEcho "stormy sea" "auto").2 || !_is_korean "stormy sea") = true ∧
    tbBoom (_en_pair gEcho "stormy sea" "auto").1 =
      Except.error "classifier crash" ∧
    _analyze_sentiment gEcho tbBoom "stormy sea" "auto" =
      Except.error "classifier crash" := by
  refine ⟨by decide, by decide, rfl, ?_⟩
  exact ((analyze_stage_gating gEcho gDown tbBoom tbZero "stormy sea" "auto"
    (by decide)).2.2.1 (by decide)).1 "classifier crash" rfl

/-- C10: every result of `_analyze_sentiment` carries one of the three
emoji label constants, so folding the `get_news` count update over any
batch of analysed results keeps exactly the three pre-initialised histogram
keys and the counts sum to the number of analysed articles. -/
theorem analyze_label_histogram (rs : List SentimentResult)
    (h : ∀ r ∈ rs, ∃ g tb text language,
      _analyze_sentiment g tb text language = Except.ok r) :
    (∀ r ∈ rs, r.label = "Positive 😊" ∨ r.label = "Neutral 😐" ∨
      r.label = "Negative 😟") ∧
    ∃ a b c, _news_label_histogram rs =
        [("Positive 😊", a), ("Neutral 😐", b), ("Negative 😟", c)] ∧
      a + b + c = rs.length := by
  have hmem : ∀ r ∈ rs, r.label = "Positive 😊" ∨ r.label = "Neutral 😐" ∨
      r.label = "Negative 😟" := by
    intro r hm
    obtain ⟨g, tb, text, language, hr⟩ := h r hm
    exact analyze_label_mem g tb text language r hr
  refine ⟨hmem, ?_⟩
  have hlabels : ∀ l ∈ rs.map (fun r => r.label), l = "Positive 😊" ∨
      l = "Neutral 😐" ∨ l = "Negative 😟" := by
    intro l hm
    obtain ⟨r, hrm, rfl⟩ := List.mem_map.mp hm
    exact hmem r hrm
  obtain ⟨a, b, c, hfold, hsum⟩ :=
    hist_aux (rs.map fun r => r.label) hlabels 0 0 0
  refine ⟨a, b, c, ?_, ?_⟩
  · unfold _news_label_histogram initCounts
    rw [← List.foldl_map (fun r : SentimentResult => r.label) _update_counts]
    exact hfold
  · simpa using hsum

/-- Witness for C10 on a single analysed article. -/
theorem analyze_label_histogram_witness :
    ∃ a b c, _news_label_histogram [mkResult gDown "hello" "auto" 0] =
        [("Positive 😊", a), ("Neutral 😐", b), ("Negative 😟", c)] ∧
      a + b + c = 1 := by
  have hh : ∀ r ∈ [mkResult gDown "hello" "auto" 0], ∃ g tb text language,
      _analyze_sentiment g tb text language = Except.ok r := by
    intro r hm
    rw [List.mem_singleton] at hm
    subst hm
    exact ⟨gDown, tbZero, "hello", "auto",
      analyze_valid_ok gDown tbZero "hello" "auto" (by decide) 0 rfl⟩
  simpa using
    (analyze_label_histogram [mkResult gDown "hello" "auto" 0] hh).2

/-- Witness for C8: a raising translator oracle degrades to
`(original text, false)`. -/
theorem translate_to_english_contract_witness :
    gDown "안녕" = Except.error "network down" ∧
    _translate_to_english gDown "안녕" = ("안녕", false) :=
  ⟨rfl, (translate_to_english_contract gDown "안녕").1 "network down" rfl⟩
